import Mathlib

/-!
Verification development for the Grape_digit sensor-simulation engine
(`src/simulator.py`, `src/tools.py`).

Python `datetime` objects are embedded as a record of civil calendar
fields plus an optional UTC offset in seconds (`none` models a naive
datetime, i.e. `tzinfo is None`).  Python floats are embedded as real
numbers; time arithmetic, which Python performs exactly at microsecond
resolution, is embedded over `ℚ`.  The process-wide Gaussian draw
`random.gauss(0, std)` is embedded as an explicit real-valued `noise`
argument to each model.  Calendar arithmetic (ordinal conversion, day
of year, leap years) follows CPython's `datetime` implementation.
-/

namespace Grape

/-- A Python `datetime`: civil fields plus optional UTC offset
(seconds); `tzOffset = none` models a naive datetime. -/
structure Datetime where
  year : ℤ
  month : ℤ
  day : ℤ
  hour : ℤ
  minute : ℤ
  second : ℤ
  microsecond : ℤ
  tzOffset : Option ℤ
deriving DecidableEq, Repr

/-- CPython `_is_leap`: `year % 4 == 0 and (year % 100 != 0 or year % 400 == 0)`. -/
def isLeap (y : ℤ) : Bool :=
  Int.emod y 4 == 0 && (Int.emod y 100 != 0 || Int.emod y 400 == 0)

/-- CPython `_DAYS_BEFORE_MONTH` table (non-leap cumulative days). -/
def daysBeforeMonthTable (m : ℤ) : ℤ :=
  if m = 1 then 0 else if m = 2 then 31 else if m = 3 then 59
  else if m = 4 then 90 else if m = 5 then 120 else if m = 6 then 151
  else if m = 7 then 181 else if m = 8 then 212 else if m = 9 then 243
  else if m = 10 then 273 else if m = 11 then 304 else 334

/-- CPython `_days_before_month`: table entry plus leap-day adjustment. -/
def daysBeforeMonth (y m : ℤ) : ℤ :=
  daysBeforeMonthTable m + (if 2 < m ∧ isLeap y then 1 else 0)

/-- CPython `_days_in_month`. -/
def daysInMonth (y m : ℤ) : ℤ :=
  if m = 2 then (if isLeap y then 29 else 28)
  else if m = 4 ∨ m = 6 ∨ m = 9 ∨ m = 11 then 30
  else 31

/-- CPython `_days_before_year`: days before January 1st of `year`. -/
def daysBeforeYear (y : ℤ) : ℤ :=
  (y - 1) * 365 + Int.ediv (y - 1) 4 - Int.ediv (y - 1) 100 + Int.ediv (y - 1) 400

/-- CPython `_ymd2ord`: proleptic Gregorian ordinal (0001-01-01 is day 1). -/
def toOrdinal (y m d : ℤ) : ℤ :=
  daysBeforeYear y + daysBeforeMonth y m + d

/-- `dt.timetuple().tm_yday`: day of the year, 1-based. -/
def dayOfYear (dt : Datetime) : ℤ :=
  daysBeforeMonth dt.year dt.month + dt.day

/-- Non-leap `_DAYS_IN_MONTH` lookup over `ℕ`, with explicit leap flag
(used by the ordinal-to-date conversion). -/
def daysInMonthN (leap : Bool) (m : ℕ) : ℕ :=
  if m = 2 then (if leap then 29 else 28)
  else if m = 4 ∨ m = 6 ∨ m = 9 ∨ m = 11 then 30
  else 31

/-- `_DAYS_BEFORE_MONTH` over `ℕ` (non-leap cumulative days). -/
def daysBeforeMonthN (m : ℕ) : ℕ :=
  if m = 1 then 0 else if m = 2 then 31 else if m = 3 then 59
  else if m = 4 then 90 else if m = 5 then 120 else if m = 6 then 151
  else if m = 7 then 181 else if m = 8 then 212 else if m = 9 then 243
  else if m = 10 then 273 else if m = 11 then 304 else 334

/-- CPython `_ord2ymd`: ordinal to (year, month, day). -/
def fromOrdinal (ord : ℕ) : ℤ × ℤ × ℤ :=
  let n0 := ord - 1
  let n400 := n0 / 146097
  let r400 := n0 % 146097
  let n100 := r400 / 36524
  let r100 := r400 % 36524
  let n4 := r100 / 1461
  let r4 := r100 % 1461
  let n1 := r4 / 365
  let n := r4 % 365
  let year := n400 * 400 + 1 + n100 * 100 + n4 * 4 + n1
  if n1 = 4 ∨ n100 = 4 then
    ((year : ℤ) - 1, 12, 31)
  else
    let leap := decide (n1 = 3) && (decide (n4 ≠ 24) || decide (n100 = 3))
    let month := (n + 50) / 32
    let preceding := daysBeforeMonthN month + (if 2 < month ∧ leap then 1 else 0)
    if n < preceding then
      let month1 := month - 1
      let preceding1 := preceding - daysInMonthN leap month1
      ((year : ℤ), (month1 : ℤ), (n - preceding1 + 1 : ℕ))
    else
      ((year : ℤ), (month : ℤ), (n - preceding + 1 : ℕ))

/-- Offset bound enforced by Python `timezone`: strictly between −24h and 24h. -/
def offsetOK : Option ℤ → Bool
  | none => true
  | some o => decide (-86400 < o) && decide (o < 86400)

/-- Field ranges a Python `datetime` object always satisfies. -/
def valid (dt : Datetime) : Prop :=
  1 ≤ dt.year ∧ 1 ≤ dt.month ∧ dt.month ≤ 12 ∧
  1 ≤ dt.day ∧ dt.day ≤ daysInMonth dt.year dt.month ∧
  0 ≤ dt.hour ∧ dt.hour ≤ 23 ∧ 0 ≤ dt.minute ∧ dt.minute ≤ 59 ∧
  0 ≤ dt.second ∧ dt.second ≤ 59 ∧
  0 ≤ dt.microsecond ∧ dt.microsecond < 1000000 ∧
  offsetOK dt.tzOffset = true

instance (dt : Datetime) : Decidable (valid dt) := by
  unfold valid; infer_instance

/-- The simulator's two failure kinds: a rejected instant
(`ValueError` from the assert helpers) and a missing month entry
(`KeyError` from the wind lookup table). -/
inductive SimError where
  | invalidTimeKind : SimError
  | unknownMonth : SimError
deriving DecidableEq, Repr

/-- `tools.assert_timezone_aware`: raises unless `dt` carries an offset. -/
def assert_timezone_aware (dt : Datetime) : Except SimError Unit :=
  if dt.tzOffset = none then Except.error SimError.invalidTimeKind else Except.ok ()

/-- `tools.assert_china_time`: raises unless `dt`'s offset is exactly UTC+8
(28800 seconds). -/
def assert_china_time (dt : Datetime) : Except SimError Unit :=
  if dt.tzOffset = some 28800 then Except.ok () else Except.error SimError.invalidTimeKind

/-- Whole seconds of `dt`'s civil time since 0001-01-01T00:00 civil
(microseconds excluded). -/
def civilSecs (dt : Datetime) : ℤ :=
  (toOrdinal dt.year dt.month dt.day - 1) * 86400 +
    dt.hour * 3600 + dt.minute * 60 + dt.second

/-- Integer part of the absolute (UTC) seconds denoted by an aware `dt`:
civil seconds minus the UTC offset. -/
def absCivilSecs (dt : Datetime) : ℤ :=
  civilSecs dt - (dt.tzOffset.getD 0)

/-- Exact absolute time of `dt` in seconds, microseconds included.
Two aware datetimes compare equal in Python iff these agree. -/
def absSeconds (dt : Datetime) : ℚ :=
  (absCivilSecs dt : ℚ) + (dt.microsecond : ℚ) / 1000000

/-- Rebuild civil fields from absolute integer seconds at offset UTC+8
(CPython `datetime.fromtimestamp`-style ordinal arithmetic). -/
def fromCivilSecsUTC8 (c : ℤ) (micro : ℤ) : Datetime :=
  let n := Int.ediv c 86400
  let s := Int.emod c 86400
  let ymd := fromOrdinal (Int.toNat (n + 1))
  { year := ymd.1, month := ymd.2.1, day := ymd.2.2,
    hour := Int.ediv s 3600, minute := Int.ediv (Int.emod s 3600) 60,
    second := Int.emod s 60, microsecond := micro, tzOffset := some 28800 }

/-- `dt.astimezone(TZ_UTC8)` for an aware `dt`: same absolute time,
civil fields re-expressed at UTC+8. -/
def astimezoneUTC8 (dt : Datetime) : Datetime :=
  fromCivilSecsUTC8 (absCivilSecs dt + 28800) dt.microsecond

/-- Fractional hour of day `dt.hour + dt.minute / 60 + dt.second / 3600`
(the value `get_time_of_day` returns when its assert passes). -/
def timeOfDay (dt : Datetime) : ℚ :=
  (dt.hour : ℚ) + (dt.minute : ℚ) / 60 + (dt.second : ℚ) / 3600

/-- `simulator.get_time_of_day`: assert UTC+8, then the fractional hour. -/
def get_time_of_day (dt : Datetime) : Except SimError ℚ :=
  assert_china_time dt >>= fun _ => Except.ok (timeOfDay dt)

/-- The epoch used by `simulator.hours_since_epoch`:
`datetime(2000, 1, 1, tzinfo=timezone.utc)`. -/
def epoch2000utc : Datetime :=
  { year := 2000, month := 1, day := 1, hour := 0, minute := 0, second := 0,
    microsecond := 0, tzOffset := some 0 }

/-- Exact value of `(dt - epoch).total_seconds() / 3600` (Python computes
the aware-datetime difference exactly at microsecond resolution). -/
def hoursSinceEpochVal (dt : Datetime) : ℚ :=
  (absSeconds dt - absSeconds epoch2000utc) / 3600

/-- `simulator.hours_since_epoch`: assert UTC+8, then elapsed seconds
since 2000-01-01T00:00 UTC divided by 3600, never truncated. -/
def hours_since_epoch (dt : Datetime) : Except SimError ℚ :=
  assert_china_time dt >>= fun _ => Except.ok (hoursSinceEpochVal dt)

/-!
Sensor models.  Each model takes the Gaussian draw `random.gauss(0, std)`
as an explicit `noise` argument.  Each model's leading `assert_china_time`
is the same check performed by the `get_time_of_day` / `hours_since_epoch`
calls in its body, so after it passes those helpers are used through their
pure value functions `timeOfDay` / `hoursSinceEpochVal`.
-/

/-- Pre-noise value of `simulator.temperature_model`:
`T_mean + A_diurnal·cos(2π(tod − t_max_diurnal)/24)
 + A_seasonal·cos(2π(doy − t_max_seasonal)/365.25)`. -/
noncomputable def tempRaw (dt : Datetime) : ℝ :=
  10 + 7 * Real.cos (2 * Real.pi * ((timeOfDay dt : ℝ) - 13) / 24)
    + 6 * Real.cos (2 * Real.pi * ((dayOfYear dt : ℝ) - 215) / 365.25)

/-- `simulator.temperature_model`. -/
noncomputable def temperature_model (dt : Datetime) (noise : ℝ) : Except SimError ℝ :=
  assert_china_time dt >>= fun _ =>
  Except.ok (10 + 7 * Real.cos (2 * Real.pi * ((timeOfDay dt : ℝ) - 13) / 24)
    + 6 * Real.cos (2 * Real.pi * ((dayOfYear dt : ℝ) - 215) / 365.25) + noise)

/-- Pre-noise value of `simulator.humidity_model`:
`H_mean + A_diurnal_H·cos(2π(tod − t_max_H)/24)`. -/
noncomputable def humRaw (dt : Datetime) : ℝ :=
  60 + 20 * Real.cos (2 * Real.pi * ((timeOfDay dt : ℝ) - 4) / 24)

/-- `simulator.humidity_model`. -/
noncomputable def humidity_model (dt : Datetime) (noise : ℝ) : Except SimError ℝ :=
  assert_china_time dt >>= fun _ =>
  Except.ok (60 + 20 * Real.cos (2 * Real.pi * ((timeOfDay dt : ℝ) - 4) / 24) + noise)

/-- Pre-noise daylight value of `simulator.light_model`:
`max_light·(1 − cos(2π(tod − sunrise)/(sunset − sunrise)))/2`. -/
noncomputable def lightRaw (dt : Datetime) : ℝ :=
  1000 * (1 - Real.cos (2 * Real.pi * ((timeOfDay dt : ℝ) - 6) / (18 - 6))) / 2

/-- `simulator.light_model`: `0` strictly outside `[sunrise, sunset]`
(before any noise), otherwise `max(0, raw + noise)`. -/
noncomputable def light_model (dt : Datetime) (noise : ℝ) : Except SimError ℝ :=
  assert_china_time dt >>= fun _ =>
  Except.ok (if timeOfDay dt < 6 ∨ 18 < timeOfDay dt then 0
    else max 0 (1000 * (1 - Real.cos (2 * Real.pi * ((timeOfDay dt : ℝ) - 6) / (18 - 6))) / 2 + noise))

/-- Pre-noise value of `simulator.soil_temperature_model`. -/
noncomputable def soilTempRaw (dt : Datetime) : ℝ :=
  15 + 5 * Real.cos (2 * Real.pi * ((timeOfDay dt : ℝ) - (14 + 3)) / 24)
    + 5 * Real.cos (2 * Real.pi * ((dayOfYear dt : ℝ) - 196) / 365.25)

/-- `simulator.soil_temperature_model`. -/
noncomputable def soil_temperature_model (dt : Datetime) (noise : ℝ) : Except SimError ℝ :=
  assert_china_time dt >>= fun _ =>
  Except.ok (15 + 5 * Real.cos (2 * Real.pi * ((timeOfDay dt : ℝ) - (14 + 3)) / 24)
    + 5 * Real.cos (2 * Real.pi * ((dayOfYear dt : ℝ) - 196) / 365.25) + noise)

/-- The `monthly_data` dict of `simulator.wind_speed_model`;
`none` models a `KeyError` on lookup. -/
def monthly_data (m : ℤ) : Option ℚ :=
  if m = 1 then some (67/10) else if m = 2 then some (69/10)
  else if m = 3 then some (72/10) else if m = 4 then some (75/10)
  else if m = 5 then some (77/10) else if m = 6 then some (79/10)
  else if m = 7 then some (77/10) else if m = 8 then some (73/10)
  else if m = 9 then some (67/10) else if m = 10 then some (64/10)
  else if m = 11 then some (65/10) else if m = 12 then some 7
  else none

/-- Pre-noise value of `simulator.wind_speed_model`:
monthly mean plus `A_diurnal_W·sin(2π(tod − t_max_W)/24)`. -/
noncomputable def windRaw (dt : Datetime) : ℝ :=
  ((monthly_data dt.month).getD 0 : ℝ)
    + 2.5 * Real.sin (2 * Real.pi * ((timeOfDay dt : ℝ) - 14) / 24)

/-- `simulator.wind_speed_model`: monthly lookup (a missing month raises),
diurnal sine, noise, then `max(0, ·)`. -/
noncomputable def wind_speed_model (dt : Datetime) (noise : ℝ) : Except SimError ℝ :=
  assert_china_time dt >>= fun _ =>
  match monthly_data dt.month with
  | none => Except.error SimError.unknownMonth
  | some wmean =>
    Except.ok (max 0 ((wmean : ℝ)
      + 2.5 * Real.sin (2 * Real.pi * ((timeOfDay dt : ℝ) - 14) / 24) + noise))

/-- Pre-noise value of `simulator.soil_moisture_model`: the fitted
harmonic regression `β0 + β1·cos(2πt/24) + β2·sin(2πt/24)
 + β3·cos(2πt/8766) + β4·sin(2πt/8766)` at `t = hoursSinceEpochVal dt`. -/
noncomputable def moistRaw (dt : Datetime) : ℝ :=
  0.2843 + ((-0.0011) * Real.cos (2 * Real.pi * (hoursSinceEpochVal dt : ℝ) / 24)
      + 0.0004 * Real.sin (2 * Real.pi * (hoursSinceEpochVal dt : ℝ) / 24))
    + (0.0227 * Real.cos (2 * Real.pi * (hoursSinceEpochVal dt : ℝ) / (24 * 365.25))
      + (-0.0722) * Real.sin (2 * Real.pi * (hoursSinceEpochVal dt : ℝ) / (24 * 365.25)))

/-- `simulator.soil_moisture_model`: harmonic regression plus noise,
then clamped into `[0, 1]` by `max(0, min(1, ·))`. -/
noncomputable def soil_moisture_model (dt : Datetime) (noise : ℝ) : Except SimError ℝ :=
  assert_china_time dt >>= fun _ =>
  Except.ok (max 0 (min 1
    (0.2843 + ((-0.0011) * Real.cos (2 * Real.pi * (hoursSinceEpochVal dt : ℝ) / 24)
        + 0.0004 * Real.sin (2 * Real.pi * (hoursSinceEpochVal dt : ℝ) / 24))
      + (0.0227 * Real.cos (2 * Real.pi * (hoursSinceEpochVal dt : ℝ) / (24 * 365.25))
        + (-0.0722) * Real.sin (2 * Real.pi * (hoursSinceEpochVal dt : ℝ) / (24 * 365.25)))
      + noise)))

namespace VirtualSensor

/-- `VirtualSensor.get_value`: check the instant is timezone-aware,
convert it to UTC+8 with `astimezone`, then evaluate the bound model. -/
noncomputable def get_value (model : Datetime → ℝ → Except SimError ℝ)
    (dt : Datetime) (noise : ℝ) : Except SimError ℝ :=
  assert_timezone_aware dt >>= fun _ => model (astimezoneUTC8 dt) noise

end VirtualSensor

/-!
Batch generation driver `simulator.generate_line_protocol_file`.

File I/O is abstracted away: the driver is embedded as the list of
output lines.  An aware-datetime loop variable interacts with the loop
only through its absolute time (comparison `current <= end_time`,
`current += interval`, `current.timestamp()`, and `get_value`, which
converts to UTC+8, all factor through it), so the loop is embedded over
the absolute Unix time `t : ℚ` in seconds.  The sensor values —
model output plus a fresh Gaussian draw per call — are abstracted as an
oracle `val` giving the float written for each sensor at each timestep.
-/

/-- Python `int(·)`: truncation toward zero. -/
def pyInt (q : ℚ) : ℤ :=
  if 0 ≤ q then Int.floor q else Int.ceil q

/-- `int(current_time.timestamp() * 1_000_000_000)` with `t` the Unix
time of `current_time` in seconds. -/
def timestampNs (t : ℚ) : ℤ :=
  pyInt (t * 1000000000)

/-- The six decimal digits of `k % 10^6`, most significant first. -/
def sixDigits (k : ℕ) : String :=
  String.mk [Nat.digitChar (k / 100000 % 10), Nat.digitChar (k / 10000 % 10),
    Nat.digitChar (k / 1000 % 10), Nat.digitChar (k / 100 % 10),
    Nat.digitChar (k / 10 % 10), Nat.digitChar (k % 10)]

/-- Python `f'{value:.6f}'` on the exact value: sign, integer part, a
dot, then exactly six fractional digits (rounding to the nearest
millionth). -/
def formatFixed6 (q : ℚ) : String :=
  let n : ℕ := Int.toNat (Int.floor (|q| * 1000000 + 1/2))
  (if q < 0 then "-" else "") ++ toString (n / 1000000) ++ "." ++ sixDigits (n % 1000000)

/-- One registered sensor: line-protocol field name and sensor id. -/
structure SensorSpec where
  field : String
  id : String
deriving DecidableEq, Repr

/-- The `sensors` registration list of `generate_line_protocol_file`,
in source order. -/
def sensors : List SensorSpec :=
  [⟨"temperature", "v_temp_1"⟩, ⟨"humidity", "v_humidity_1"⟩,
   ⟨"light_intensity", "v_light_1"⟩, ⟨"soil_temperature", "v_soil_temp_1"⟩,
   ⟨"wind_speed", "v_wind_1"⟩, ⟨"soil_moisture", "v_soil_moisture_1"⟩]

/-- One output line:
`env_data,sensor_id=<id> <field>=<value:.6f> <timestamp_ns>\n`. -/
def mkLine (s : SensorSpec) (v : ℚ) (tsNs : ℤ) : String :=
  "env_data,sensor_id=" ++ s.id ++ " " ++ s.field ++ "=" ++ formatFixed6 v
    ++ " " ++ toString tsNs ++ "\n"

/-- The successive values of the loop variable `current_time` (as Unix
seconds): `current = start; while current ≤ end: ...; current += step`. -/
def stepsList (tEnd step : ℚ) (hstep : 0 < step) (t : ℚ) : List ℚ :=
  if h : t ≤ tEnd then t :: stepsList tEnd step hstep (t + step) else []
termination_by Int.toNat (Int.floor ((tEnd - t) / step) + 1)
decreasing_by
  have h0 : (0 : ℚ) ≤ (tEnd - t) / step := div_nonneg (by linarith) (le_of_lt hstep)
  have h1 : (tEnd - (t + step)) / step = (tEnd - t) / step - 1 := by
    field_simp
    ring
  have h2 : Int.floor ((tEnd - (t + step)) / step) = Int.floor ((tEnd - t) / step) - 1 := by
    rw [h1]
    exact_mod_cast Int.floor_sub_int ((tEnd - t) / step) 1
  have h3 : (0 : ℤ) ≤ Int.floor ((tEnd - t) / step) := Int.floor_nonneg.mpr h0
  omega

/-- The body of `generate_line_protocol_file`'s while loop: at each
timestep emit one line per registered sensor, in registration order, all
sharing the timestep's nanosecond timestamp. -/
def generate_line_protocol_lines (val : ℚ → SensorSpec → ℚ)
    (tEnd step : ℚ) (hstep : 0 < step) (t : ℚ) : List String :=
  if h : t ≤ tEnd then
    (sensors.map fun s => mkLine s (val t s) (timestampNs t))
      ++ generate_line_protocol_lines val tEnd step hstep (t + step)
  else []
termination_by Int.toNat (Int.floor ((tEnd - t) / step) + 1)
decreasing_by
  have h0 : (0 : ℚ) ≤ (tEnd - t) / step := div_nonneg (by linarith) (le_of_lt hstep)
  have h1 : (tEnd - (t + step)) / step = (tEnd - t) / step - 1 := by
    field_simp
    ring
  have h2 : Int.floor ((tEnd - (t + step)) / step) = Int.floor ((tEnd - t) / step) - 1 := by
    rw [h1]
    exact_mod_cast Int.floor_sub_int ((tEnd - t) / step) 1
  have h3 : (0 : ℤ) ≤ Int.floor ((tEnd - t) / step) := Int.floor_nonneg.mpr h0
  omega

/-!
Concrete instants used as evaluation inputs below
(fields: year, month, day, hour, minute, second, microsecond, tzOffset).
-/

/-- 2000-01-01T00:00:00+08:00 — the epoch instant expressed at UTC+8. -/
def dtEpochCn : Datetime := ⟨2000, 1, 1, 0, 0, 0, 0, some 28800⟩

/-- 2000-01-01T08:00:00+08:00 — the instant equal to 2000-01-01T00:00Z. -/
def dtEpochCn8 : Datetime := ⟨2000, 1, 1, 8, 0, 0, 0, some 28800⟩

/-- 2023-12-31T16:00:00+00:00 — the repo test's instant, equal to
2024-01-01T00:00:00+08:00. -/
def dtTestUtc : Datetime := ⟨2023, 12, 31, 16, 0, 0, 0, some 0⟩

/-- 2024-01-01T00:00:00 naive (no offset). -/
def dtNaive : Datetime := ⟨2024, 1, 1, 0, 0, 0, 0, none⟩

/-- 2024-01-01T00:00:00+00:00. -/
def dtUtc0 : Datetime := ⟨2024, 1, 1, 0, 0, 0, 0, some 0⟩

/-- 2024-01-01T08:00:00+08:00 — same absolute time as `dtUtc0`. -/
def dtCn8 : Datetime := ⟨2024, 1, 1, 8, 0, 0, 0, some 28800⟩

/-- 2024-06-20T12:00:00+08:00 — midpoint of daylight. -/
def dtMid : Datetime := ⟨2024, 6, 20, 12, 0, 0, 0, some 28800⟩

/-- 2024-08-03T13:00:00+08:00 — the diurnal temperature peak hour. -/
def dtPeak : Datetime := ⟨2024, 8, 3, 13, 0, 0, 0, some 28800⟩

/-- 2024-07-01T00:00:00+08:00 — a July instant. -/
def dtJuly : Datetime := ⟨2024, 7, 1, 0, 0, 0, 0, some 28800⟩

/-- 2024-02-29T23:59:59+08:00 — a leap-day instant. -/
def dtLeap : Datetime := ⟨2024, 2, 29, 23, 59, 59, 0, some 28800⟩

/-- 2024-03-15T12:00:00+08:00. -/
def dtNoon : Datetime := ⟨2024, 3, 15, 12, 0, 0, 0, some 28800⟩

/-- The batch driver's step is positive (60 minutes = 3600 seconds). -/
theorem hstep3600 : (0 : ℚ) < 3600 := by norm_num

theorem stepsList_measure_zero {tEnd step : ℚ} (hstep : 0 < step) {t : ℚ}
    (ht : Int.toNat (Int.floor ((tEnd - t) / step) + 1) = 0) : ¬ t ≤ tEnd := by
  intro hle
  have h0 : (0 : ℚ) ≤ (tEnd - t) / step := div_nonneg (by linarith) hstep.le
  have h1 : (0 : ℤ) ≤ Int.floor ((tEnd - t) / step) := Int.floor_nonneg.mpr h0
  omega

theorem stepsList_measure_step {tEnd step : ℚ} (hstep : 0 < step) {t : ℚ} :
    Int.floor ((tEnd - (t + step)) / step) = Int.floor ((tEnd - t) / step) - 1 := by
  have h1 : (tEnd - (t + step)) / step = (tEnd - t) / step - 1 := by
    field_simp
    ring
  rw [h1]
  exact_mod_cast Int.floor_sub_int ((tEnd - t) / step) 1

theorem stepsList_nil {tEnd step : ℚ} {hstep : 0 < step} {t : ℚ} (h : ¬ t ≤ tEnd) :
    stepsList tEnd step hstep t = [] := by
  rw [stepsList]
  simp [h]

theorem stepsList_cons {tEnd step : ℚ} {hstep : 0 < step} {t : ℚ} (h : t ≤ tEnd) :
    stepsList tEnd step hstep t = t :: stepsList tEnd step hstep (t + step) := by
  rw [stepsList]
  simp [h]

theorem genLines_nil (val : ℚ → SensorSpec → ℚ) {tEnd step : ℚ} {hstep : 0 < step}
    {t : ℚ} (h : ¬ t ≤ tEnd) :
    generate_line_protocol_lines val tEnd step hstep t = [] := by
  rw [generate_line_protocol_lines]
  simp [h]

theorem genLines_cons (val : ℚ → SensorSpec → ℚ) {tEnd step : ℚ} {hstep : 0 < step}
    {t : ℚ} (h : t ≤ tEnd) :
    generate_line_protocol_lines val tEnd step hstep t
      = (sensors.map fun s => mkLine s (val t s) (timestampNs t))
        ++ generate_line_protocol_lines val tEnd step hstep (t + step) := by
  rw [generate_line_protocol_lines]
  simp [h]

/-- The while loop emits, for each timestep in `stepsList`, one line per
registered sensor in registration order. -/
theorem genLines_eq_bind (val : ℚ → SensorSpec → ℚ) (tEnd step : ℚ) (hstep : 0 < step)
    (t : ℚ) :
    generate_line_protocol_lines val tEnd step hstep t
      = (stepsList tEnd step hstep t).flatMap
          (fun u => sensors.map fun s => mkLine s (val u s) (timestampNs u)) := by
  suffices h : ∀ (n : ℕ) (t : ℚ), Int.toNat (Int.floor ((tEnd - t) / step) + 1) ≤ n →
      generate_line_protocol_lines val tEnd step hstep t
        = (stepsList tEnd step hstep t).flatMap
            (fun u => sensors.map fun s => mkLine s (val u s) (timestampNs u)) by
    exact h _ t le_rfl
  intro n
  induction n with
  | zero =>
    intro t ht
    have h : ¬ t ≤ tEnd := stepsList_measure_zero hstep (Nat.le_zero.mp ht)
    rw [genLines_nil val h, stepsList_nil h]
    rfl
  | succ n ih =>
    intro t ht
    by_cases h : t ≤ tEnd
    · have h0 : (0 : ℚ) ≤ (tEnd - t) / step := div_nonneg (by linarith) hstep.le
      have h1 : (0 : ℤ) ≤ Int.floor ((tEnd - t) / step) := Int.floor_nonneg.mpr h0
      have hm : Int.toNat (Int.floor ((tEnd - (t + step)) / step) + 1) ≤ n := by
        have h2 := @stepsList_measure_step tEnd step hstep t
        omega
      rw [genLines_cons val h, stepsList_cons h, List.flatMap_cons, ih (t + step) hm]
    · rw [genLines_nil val h, stepsList_nil h]
      rfl

/-- Number of loop iterations of `current = start; while current ≤ end:
current += step`: `⌊(end − start)/step⌋ + 1` when `start ≤ end`. -/
theorem stepsList_length (tEnd step : ℚ) (hstep : 0 < step) (t : ℚ) :
    (stepsList tEnd step hstep t).length
      = if t ≤ tEnd then Int.toNat (Int.floor ((tEnd - t) / step) + 1) else 0 := by
  suffices h : ∀ (n : ℕ) (t : ℚ), Int.toNat (Int.floor ((tEnd - t) / step) + 1) ≤ n →
      (stepsList tEnd step hstep t).length
        = if t ≤ tEnd then Int.toNat (Int.floor ((tEnd - t) / step) + 1) else 0 by
    exact h _ t le_rfl
  intro n
  induction n with
  | zero =>
    intro t ht
    have h : ¬ t ≤ tEnd := stepsList_measure_zero hstep (Nat.le_zero.mp ht)
    rw [stepsList_nil h, if_neg h]
    rfl
  | succ n ih =>
    intro t ht
    by_cases h : t ≤ tEnd
    · have h0 : (0 : ℚ) ≤ (tEnd - t) / step := div_nonneg (by linarith) hstep.le
      have h1 : (0 : ℤ) ≤ Int.floor ((tEnd - t) / step) := Int.floor_nonneg.mpr h0
      have h2 := @stepsList_measure_step tEnd step hstep t
      have hm : Int.toNat (Int.floor ((tEnd - (t + step)) / step) + 1) ≤ n := by omega
      rw [stepsList_cons h, List.length_cons, ih (t + step) hm, if_pos h]
      by_cases h3 : t + step ≤ tEnd
      · rw [if_pos h3]
        omega
      · rw [if_neg h3]
        have h4 : (tEnd - t) / step < 1 := by
          rw [div_lt_one hstep]
          linarith
        have h5 : Int.floor ((tEnd - t) / step) = 0 :=
          Int.floor_eq_zero_iff.mpr ⟨h0, h4⟩
        omega
    · rw [stepsList_nil h, if_neg h]
      rfl

theorem stepsList_head_eq {tEnd step : ℚ} {hstep : 0 < step} (u : ℚ) :
    ∀ b ∈ (stepsList tEnd step hstep u).head?, b = u := by
  intro b hb
  by_cases h : u ≤ tEnd
  · rw [stepsList_cons h] at hb
    exact (by simpa using hb : u = b).symm
  · rw [stepsList_nil h] at hb
    simp at hb

/-- Consecutive timesteps differ by exactly `step`. -/
theorem stepsList_chain (tEnd step : ℚ) (hstep : 0 < step) (t : ℚ) :
    List.Chain' (fun a b => b = a + step) (stepsList tEnd step hstep t) := by
  suffices h : ∀ (n : ℕ) (t : ℚ), Int.toNat (Int.floor ((tEnd - t) / step) + 1) ≤ n →
      List.Chain' (fun a b => b = a + step) (stepsList tEnd step hstep t) by
    exact h _ t le_rfl
  intro n
  induction n with
  | zero =>
    intro t ht
    rw [stepsList_nil (stepsList_measure_zero hstep (Nat.le_zero.mp ht))]
    exact List.chain'_nil
  | succ n ih =>
    intro t ht
    by_cases h : t ≤ tEnd
    · have h0 : (0 : ℚ) ≤ (tEnd - t) / step := div_nonneg (by linarith) hstep.le
      have h1 : (0 : ℤ) ≤ Int.floor ((tEnd - t) / step) := Int.floor_nonneg.mpr h0
      have h2 := @stepsList_measure_step tEnd step hstep t
      have hm : Int.toNat (Int.floor ((tEnd - (t + step)) / step) + 1) ≤ n := by omega
      rw [stepsList_cons h]
      exact List.chain'_cons'.mpr
        ⟨fun b hb => (stepsList_head_eq (t + step) b hb).symm ▸ rfl,
         ih (t + step) hm⟩
    · rw [stepsList_nil h]
      exact List.chain'_nil

/-- Truncation toward zero grows strictly under adding an integer ≥ 2. -/
theorem pyInt_lt_add (x : ℚ) (n : ℤ) (hn : 2 ≤ n) : pyInt x < pyInt (x + n) := by
  have hceil : Int.ceil x ≤ Int.floor x + 1 := Int.ceil_le_floor_add_one x
  unfold pyInt
  by_cases h1 : 0 ≤ x
  · have h2 : 0 ≤ x + (n : ℚ) := by
      have : (0 : ℚ) ≤ (n : ℚ) := by exact_mod_cast (by omega : (0 : ℤ) ≤ n)
      linarith
    rw [if_pos h1, if_pos h2, Int.floor_add_int]
    omega
  · by_cases h2 : 0 ≤ x + (n : ℚ)
    · rw [if_neg h1, if_pos h2, Int.floor_add_int]
      omega
    · rw [if_neg h1, if_neg h2, Int.ceil_add_int]
      omega

/-- A `.6f`-formatted value is an optionally signed integer part, a dot,
and exactly six fractional digits. -/
theorem formatFixed6_shape (q : ℚ) :
    ∃ a b : String, formatFixed6 q = a ++ "." ++ b ∧ b.length = 6 := by
  refine ⟨(if q < 0 then "-" else "")
      ++ toString (Int.toNat (Int.floor (|q| * 1000000 + 1/2)) / 1000000),
    sixDigits (Int.toNat (Int.floor (|q| * 1000000 + 1/2)) % 1000000), ?_, rfl⟩
  rw [formatFixed6]

theorem ok_bind {α β : Type} (a : α) (f : α → Except SimError β) :
    (Except.ok a >>= f) = f a := rfl

theorem sum_map_const_nat {α : Type} (l : List α) (c : ℕ) :
    (l.map fun _ => c).sum = l.length * c := by
  induction l with
  | nil => simp
  | cons a l ih => simp [ih, Nat.succ_mul, Nat.add_comm]

/-- Two aware datetimes with in-range microseconds denoting the same
absolute time have the same whole-second part and microsecond. -/
theorem absSeconds_inj_parts {dt1 dt2 : Datetime}
    (hm1 : 0 ≤ dt1.microsecond) (hM1 : dt1.microsecond < 1000000)
    (hm2 : 0 ≤ dt2.microsecond) (hM2 : dt2.microsecond < 1000000)
    (h : absSeconds dt1 = absSeconds dt2) :
    absCivilSecs dt1 = absCivilSecs dt2 ∧ dt1.microsecond = dt2.microsecond := by
  unfold absSeconds at h
  have hq : ((absCivilSecs dt1 * 1000000 + dt1.microsecond : ℤ) : ℚ)
      = ((absCivilSecs dt2 * 1000000 + dt2.microsecond : ℤ) : ℚ) := by
    push_cast
    linarith
  have hz : absCivilSecs dt1 * 1000000 + dt1.microsecond
      = absCivilSecs dt2 * 1000000 + dt2.microsecond := by exact_mod_cast hq
  omega

/-- `astimezone` depends only on the absolute time of an aware instant. -/
theorem astimezoneUTC8_congr {dt1 dt2 : Datetime}
    (hm1 : 0 ≤ dt1.microsecond) (hM1 : dt1.microsecond < 1000000)
    (hm2 : 0 ≤ dt2.microsecond) (hM2 : dt2.microsecond < 1000000)
    (h : absSeconds dt1 = absSeconds dt2) :
    astimezoneUTC8 dt1 = astimezoneUTC8 dt2 := by
  obtain ⟨h1, h2⟩ := absSeconds_inj_parts hm1 hM1 hm2 hM2 h
  unfold astimezoneUTC8
  rw [h1, h2]

/-- C3: the claim asserts `hours_since_epoch` measures elapsed time from
the epoch 2000-01-01T00:00 expressed at the canonical UTC+8 offset, and
hence returns 0 at 2000-01-01T00:00:00+08:00.  The code's epoch is
`datetime(2000, 1, 1, tzinfo=timezone.utc)`: evaluating the embedded code
shows it returns −8 at 2000-01-01T00:00:00+08:00 and returns 0 at
2000-01-01T08:00:00+08:00 (the instant equal to the UTC epoch).  The
division by 3600 itself is exact, but the epoch is the UTC one — the
runtime is 8 hours out of phase with the calibration script
`soil_moist_regress.py`, whose `hours_since_epoch` uses the naive civil
epoch `datetime(2000, 1, 1)`. -/
theorem hours_since_epoch_epoch_is_utc :
    hours_since_epoch dtEpochCn = Except.ok (-8) ∧
    hours_since_epoch dtEpochCn8 = Except.ok 0 := by
  constructor
  · show Except.ok (hoursSinceEpochVal dtEpochCn) = Except.ok (-8)
    congr 1
    norm_num [hoursSinceEpochVal, absSeconds, absCivilSecs, civilSecs, toOrdinal,
      daysBeforeYear, daysBeforeMonth, daysBeforeMonthTable, isLeap, dtEpochCn, epoch2000utc]
  · show Except.ok (hoursSinceEpochVal dtEpochCn8) = Except.ok 0
    congr 1
    norm_num [hoursSinceEpochVal, absSeconds, absCivilSecs, civilSecs, toOrdinal,
      daysBeforeYear, daysBeforeMonth, daysBeforeMonthTable, isLeap, dtEpochCn8, epoch2000utc]

/-- C6: with the noise term forced to 0, `light_model` returns exactly 0
for any valid UTC+8 instant whose hour-of-day is strictly below sunrise
(6) or strictly above sunset (18); inside `[sunrise, sunset]` it returns
`maxLight·(1 − cos(2π(hourOfDay − sunrise)/(sunset − sunrise)))/2`, which
equals `maxLight = 1000` at the midpoint `hourOfDay = 12`. -/
theorem light_model_prenoise_daylight (dt : Datetime) (hv : valid dt)
    (hc : dt.tzOffset = some 28800) :
    (timeOfDay dt < 6 ∨ 18 < timeOfDay dt → light_model dt 0 = Except.ok 0) ∧
    (6 ≤ timeOfDay dt → timeOfDay dt ≤ 18 →
      light_model dt 0 = Except.ok
        (1000 * (1 - Real.cos (2 * Real.pi * ((timeOfDay dt : ℝ) - 6) / (18 - 6))) / 2)) ∧
    (timeOfDay dt = 12 → light_model dt 0 = Except.ok 1000) := by
  have hassert : assert_china_time dt = Except.ok () := by
    rw [assert_china_time, if_pos hc]
  have hopen : light_model dt 0 = Except.ok (if timeOfDay dt < 6 ∨ 18 < timeOfDay dt then 0
      else max 0 (1000 * (1 - Real.cos (2 * Real.pi * ((timeOfDay dt : ℝ) - 6) / (18 - 6))) / 2 + 0)) := by
    unfold light_model
    rw [hassert, ok_bind]
  refine ⟨?_, ?_, ?_⟩
  · intro h
    rw [hopen, if_pos h]
  · intro h6 h18
    have hcond : ¬ (timeOfDay dt < 6 ∨ 18 < timeOfDay dt) := by
      rintro (h | h) <;> linarith
    rw [hopen, if_neg hcond]
    congr 1
    have hnn : (0 : ℝ) ≤ 1000 * (1 - Real.cos (2 * Real.pi * ((timeOfDay dt : ℝ) - 6) / (18 - 6))) / 2 := by
      have := Real.cos_le_one (2 * Real.pi * ((timeOfDay dt : ℝ) - 6) / (18 - 6))
      linarith
    rw [add_zero, max_eq_right hnn]
  · intro h12
    have hcond : ¬ (timeOfDay dt < 6 ∨ 18 < timeOfDay dt) := by
      rw [h12]
      rintro (h | h) <;> norm_num at h
    rw [hopen, if_neg hcond]
    congr 1
    rw [h12]
    have harg : 2 * Real.pi * (((12 : ℚ) : ℝ) - 6) / (18 - 6) = Real.pi := by
      push_cast
      ring
    rw [harg, Real.cos_pi]
    norm_num

/-- C6 witness: at 2024-06-20T12:00:00+08:00 (midpoint of daylight), the
pre-noise light value is exactly `maxLight = 1000`. -/
theorem light_model_prenoise_daylight_witness :
    light_model dtMid 0 = Except.ok 1000 :=
  (light_model_prenoise_daylight dtMid (by decide) rfl).2.2 (by norm_num [dtMid, timeOfDay])

/-- C7: for every valid UTC+8 instant whose hour-of-day equals the
configured diurnal peak hour `t_max_diurnal = 13`, the pre-noise value of
`temperature_model` is `T_mean + A_diurnal +
A_seasonal·cos(2π(dayOfYear − t_max_seasonal)/365.25)` — the diurnal
cosine attains its maximum `A_diurnal = 7` exactly at the peak hour. -/
theorem temperature_model_diurnal_peak (dt : Datetime) (hv : valid dt)
    (hc : dt.tzOffset = some 28800) (h13 : timeOfDay dt = 13) :
    temperature_model dt 0
      = Except.ok (10 + 7 + 6 * Real.cos (2 * Real.pi * ((dayOfYear dt : ℝ) - 215) / 365.25)) := by
  have hassert : assert_china_time dt = Except.ok () := by
    rw [assert_china_time, if_pos hc]
  unfold temperature_model
  rw [hassert, ok_bind]
  congr 1
  rw [h13]
  have harg : 2 * Real.pi * (((13 : ℚ) : ℝ) - 13) / 24 = 0 := by
    push_cast
    ring
  rw [harg, Real.cos_zero]
  ring

/-- C7 witness: at 2024-08-03T13:00:00+08:00 the pre-noise temperature is
`T_mean + A_diurnal + seasonal term`. -/
theorem temperature_model_diurnal_peak_witness :
    temperature_model dtPeak 0
      = Except.ok (10 + 7 + 6 * Real.cos (2 * Real.pi *
          ((dayOfYear dtPeak : ℝ) - 215) / 365.25)) :=
  temperature_model_diurnal_peak dtPeak (by decide) rfl (by norm_num [dtPeak, timeOfDay])

/-- C8: for every valid UTC+8 instant, the calendar month lies in 1..12,
the hard-wired monthly wind table has an entry for it, and
`wind_speed_model` succeeds: the missing-month error branch is
unreachable. -/
theorem wind_month_lookup_total (dt : Datetime) (hv : valid dt)
    (hc : dt.tzOffset = some 28800) (noise : ℝ) :
    1 ≤ dt.month ∧ dt.month ≤ 12 ∧
    (monthly_data dt.month).isSome = true ∧
    ∃ v, wind_speed_model dt noise = Except.ok v := by
  obtain ⟨-, hm1, hm2, -⟩ := hv
  obtain ⟨w, hw⟩ : ∃ w, monthly_data dt.month = some w := by
    revert hm1 hm2
    generalize dt.month = m
    intro hm1 hm2
    interval_cases m <;> simp [monthly_data]
  have hassert : assert_china_time dt = Except.ok () := by
    rw [assert_china_time, if_pos hc]
  refine ⟨hm1, hm2, by rw [hw]; rfl, ?_⟩
  refine ⟨max 0 ((w : ℝ) + 2.5 * Real.sin (2 * Real.pi * ((timeOfDay dt : ℝ) - 14) / 24) + noise), ?_⟩
  unfold wind_speed_model
  rw [hassert, ok_bind, hw]

/-- C8 witness: at 2024-07-01T00:00:00+08:00 the July entry exists and the
wind model succeeds. -/
theorem wind_month_lookup_total_witness :
    1 ≤ dtJuly.month ∧ dtJuly.month ≤ 12 ∧
    (monthly_data dtJuly.month).isSome = true ∧
    ∃ v, wind_speed_model dtJuly 0 = Except.ok v :=
  wind_month_lookup_total dtJuly (by decide) rfl 0

/-- C1: for every valid UTC+8 instant and every value of the Gaussian
draw, `wind_speed_model` and `light_model` return values ≥ 0 and
`soil_moisture_model` returns a value in [0, 1]; the clamps `max(0, ·)`
(wind, light's daylight branch) and `max(0, min(1, ·))` (moisture) are
applied to the sum of the raw model value and the noise term, while
`temperature_model` and `humidity_model` return raw value plus noise,
unclamped. -/
theorem clamps_after_noise_and_ranges (dt : Datetime) (hv : valid dt)
    (hc : dt.tzOffset = some 28800) (noise : ℝ) :
    wind_speed_model dt noise = Except.ok (max 0 (windRaw dt + noise)) ∧
    (0 : ℝ) ≤ max 0 (windRaw dt + noise) ∧
    light_model dt noise = Except.ok (if timeOfDay dt < 6 ∨ 18 < timeOfDay dt then 0
      else max 0 (lightRaw dt + noise)) ∧
    (∀ v : ℝ, light_model dt noise = Except.ok v → 0 ≤ v) ∧
    soil_moisture_model dt noise = Except.ok (max 0 (min 1 (moistRaw dt + noise))) ∧
    (∀ v : ℝ, soil_moisture_model dt noise = Except.ok v → 0 ≤ v ∧ v ≤ 1) ∧
    temperature_model dt noise = Except.ok (tempRaw dt + noise) ∧
    humidity_model dt noise = Except.ok (humRaw dt + noise) := by
  have hassert : assert_china_time dt = Except.ok () := by
    rw [assert_china_time, if_pos hc]
  obtain ⟨-, hm1, hm2, -⟩ := hv
  obtain ⟨w, hw⟩ : ∃ w, monthly_data dt.month = some w := by
    revert hm1 hm2
    generalize dt.month = m
    intro hm1 hm2
    interval_cases m <;> simp [monthly_data]
  have hwind : wind_speed_model dt noise = Except.ok (max 0 (windRaw dt + noise)) := by
    unfold wind_speed_model windRaw
    rw [hassert, ok_bind, hw]
    rfl
  have hlight : light_model dt noise
      = Except.ok (if timeOfDay dt < 6 ∨ 18 < timeOfDay dt then 0
        else max 0 (lightRaw dt + noise)) := by
    unfold light_model lightRaw
    rw [hassert, ok_bind]
  have hmoist : soil_moisture_model dt noise
      = Except.ok (max 0 (min 1 (moistRaw dt + noise))) := by
    unfold soil_moisture_model moistRaw
    rw [hassert, ok_bind]
  refine ⟨hwind, le_max_left _ _, hlight, ?_, hmoist, ?_, ?_, ?_⟩
  · intro v hv'
    rw [hlight, Except.ok.injEq] at hv'
    subst hv'
    split
    · exact le_refl 0
    · exact le_max_left _ _
  · intro v hv'
    rw [hmoist, Except.ok.injEq] at hv'
    subst hv'
    exact ⟨le_max_left _ _, max_le (by norm_num) (min_le_left _ _)⟩
  · unfold temperature_model tempRaw
    rw [hassert, ok_bind]
  · unfold humidity_model humRaw
    rw [hassert, ok_bind]

/-- C1 witness: at 2024-03-15T12:00:00+08:00 with a zero noise draw, the
temperature output equals the raw value plus noise and the clamped wind
value is nonnegative. -/
theorem clamps_after_noise_and_ranges_witness :
    temperature_model dtNoon 0 = Except.ok (tempRaw dtNoon + 0) ∧
    (0 : ℝ) ≤ max 0 (windRaw dtNoon + 0) := by
  have h := clamps_after_noise_and_ranges dtNoon (by decide) rfl 0
  exact ⟨h.2.2.2.2.2.2.1, h.2.1⟩

/-- C2 counterexample: the claim says `get_value` fails for every instant
whose offset differs from UTC+8, but on the UTC-offset instant
2023-12-31T16:00:00+00:00 (= 2024-01-01T00:00:00+08:00, the repo's own
test input) it succeeds and returns 0 — the instant is converted, not
rejected. -/
theorem get_value_accepts_utc_offset_instant :
    VirtualSensor.get_value light_model dtTestUtc 0 = Except.ok 0 := by
  have hconv : astimezoneUTC8 dtTestUtc = ⟨2024, 1, 1, 0, 0, 0, 0, some 28800⟩ := by
    decide
  show light_model (astimezoneUTC8 dtTestUtc) 0 = Except.ok 0
  rw [hconv]
  have hassert : assert_china_time (⟨2024, 1, 1, 0, 0, 0, 0, some 28800⟩ : Datetime)
      = Except.ok () := rfl
  unfold light_model
  rw [hassert, ok_bind]
  have hc0 : timeOfDay (⟨2024, 1, 1, 0, 0, 0, 0, some 28800⟩ : Datetime) < 6 ∨
      18 < timeOfDay (⟨2024, 1, 1, 0, 0, 0, 0, some 28800⟩ : Datetime) :=
    Or.inl (by norm_num [timeOfDay])
  rw [if_pos hc0]

/-- C2 (amended): `VirtualSensor.get_value` fails exactly for instants
lacking timezone-offset metadata; an aware instant whose offset differs
from UTC+8 is not rejected — it is converted to UTC+8 by `astimezone`
before the model is evaluated (no default is substituted for a missing
offset; a mismatched offset is converted rather than rejected). -/
theorem get_value_rejects_only_naive_and_converts
    (model : Datetime → ℝ → Except SimError ℝ) (dt : Datetime) (noise : ℝ) :
    (dt.tzOffset = none →
      VirtualSensor.get_value model dt noise = Except.error SimError.invalidTimeKind) ∧
    (dt.tzOffset.isSome = true →
      VirtualSensor.get_value model dt noise = model (astimezoneUTC8 dt) noise ∧
      (astimezoneUTC8 dt).tzOffset = some 28800) := by
  constructor
  · intro h
    unfold VirtualSensor.get_value assert_timezone_aware
    rw [if_pos h]
    rfl
  · intro h
    have hne : ¬ dt.tzOffset = none := by
      intro hnone
      rw [hnone] at h
      simp at h
    refine ⟨?_, rfl⟩
    unfold VirtualSensor.get_value assert_timezone_aware
    rw [if_neg hne]
    rfl

/-- C2 witness: `get_value` errors on a naive instant and on an aware
UTC-offset instant returns the model applied to the converted instant. -/
theorem get_value_rejects_only_naive_and_converts_witness :
    VirtualSensor.get_value temperature_model dtNaive 0
      = Except.error SimError.invalidTimeKind ∧
    VirtualSensor.get_value temperature_model dtUtc0 0
      = temperature_model (astimezoneUTC8 dtUtc0) 0 :=
  ⟨(get_value_rejects_only_naive_and_converts temperature_model dtNaive 0).1 rfl,
   ((get_value_rejects_only_naive_and_converts temperature_model dtUtc0 0).2 rfl).1⟩

/-- C9: `get_value` converts any aware instant to UTC+8 before evaluating
the model, so two aware instants denoting the same absolute time (with
different offsets) produce identical results under the same noise draw:
at the public interface an offset-mismatched aware instant is converted,
not rejected. -/
theorem get_value_converts_same_absolute_instant
    (model : Datetime → ℝ → Except SimError ℝ) (dt1 dt2 : Datetime) (o1 o2 : ℤ)
    (h1 : dt1.tzOffset = some o1) (h2 : dt2.tzOffset = some o2)
    (hm1 : 0 ≤ dt1.microsecond) (hM1 : dt1.microsecond < 1000000)
    (hm2 : 0 ≤ dt2.microsecond) (hM2 : dt2.microsecond < 1000000)
    (habs : absSeconds dt1 = absSeconds dt2) (noise : ℝ) :
    VirtualSensor.get_value model dt1 noise = model (astimezoneUTC8 dt1) noise ∧
    VirtualSensor.get_value model dt1 noise = VirtualSensor.get_value model dt2 noise := by
  have hne1 : ¬ dt1.tzOffset = none := by rw [h1]; simp
  have hne2 : ¬ dt2.tzOffset = none := by rw [h2]; simp
  have e1 : VirtualSensor.get_value model dt1 noise = model (astimezoneUTC8 dt1) noise := by
    unfold VirtualSensor.get_value assert_timezone_aware
    rw [if_neg hne1]
    rfl
  have e2 : VirtualSensor.get_value model dt2 noise = model (astimezoneUTC8 dt2) noise := by
    unfold VirtualSensor.get_value assert_timezone_aware
    rw [if_neg hne2]
    rfl
  exact ⟨e1, by rw [e1, e2, astimezoneUTC8_congr hm1 hM1 hm2 hM2 habs]⟩

/-- C9 witness: 2024-01-01T00:00:00+00:00 and 2024-01-01T08:00:00+08:00
denote the same absolute time; `get_value` converts and agrees on both. -/
theorem get_value_converts_same_absolute_instant_witness :
    VirtualSensor.get_value light_model dtUtc0 0
      = light_model (astimezoneUTC8 dtUtc0) 0 ∧
    VirtualSensor.get_value light_model dtUtc0 0
      = VirtualSensor.get_value light_model dtCn8 0 :=
  get_value_converts_same_absolute_instant light_model dtUtc0 dtCn8 0 28800 rfl rfl
    (by decide) (by decide) (by decide) (by decide)
    (by
      have h : absCivilSecs dtUtc0 = absCivilSecs dtCn8 := by decide
      unfold absSeconds
      rw [h]
      norm_num [dtUtc0, dtCn8]) 0

/-- C10: `get_time_of_day` returns `hour + minute/60 + second/3600`, a
value in `[0, 24)`, and ignores the microsecond component: instants
differing only in microseconds yield identical hour-of-day and identical
temperature/humidity/light/soil-temperature/wind results, while
`hours_since_epoch` retains full sub-second resolution. -/
theorem get_time_of_day_props (dt : Datetime) (hv : valid dt)
    (hc : dt.tzOffset = some 28800) (u : ℤ) (hu0 : 0 ≤ u) (hu1 : u < 1000000)
    (noise : ℝ) :
    get_time_of_day dt
      = Except.ok ((dt.hour : ℚ) + (dt.minute : ℚ) / 60 + (dt.second : ℚ) / 3600) ∧
    0 ≤ timeOfDay dt ∧ timeOfDay dt < 24 ∧
    get_time_of_day { dt with microsecond := u } = get_time_of_day dt ∧
    temperature_model { dt with microsecond := u } noise = temperature_model dt noise ∧
    humidity_model { dt with microsecond := u } noise = humidity_model dt noise ∧
    light_model { dt with microsecond := u } noise = light_model dt noise ∧
    soil_temperature_model { dt with microsecond := u } noise
      = soil_temperature_model dt noise ∧
    wind_speed_model { dt with microsecond := u } noise = wind_speed_model dt noise ∧
    hours_since_epoch { dt with microsecond := u }
      = Except.ok (hoursSinceEpochVal dt
          + (((u : ℤ) : ℚ) - (dt.microsecond : ℚ)) / 3600000000) := by
  obtain ⟨-, -, -, -, -, h6, h7, h8, h9, h10, h11, -, -, -⟩ := hv
  have hassert : assert_china_time dt = Except.ok () := by
    rw [assert_china_time, if_pos hc]
  have hq1 : (0 : ℚ) ≤ (dt.hour : ℚ) := by exact_mod_cast h6
  have hq2 : (dt.hour : ℚ) ≤ 23 := by exact_mod_cast h7
  have hq3 : (0 : ℚ) ≤ (dt.minute : ℚ) := by exact_mod_cast h8
  have hq4 : (dt.minute : ℚ) ≤ 59 := by exact_mod_cast h9
  have hq5 : (0 : ℚ) ≤ (dt.second : ℚ) := by exact_mod_cast h10
  have hq6 : (dt.second : ℚ) ≤ 59 := by exact_mod_cast h11
  have d1 : (0 : ℚ) ≤ (dt.minute : ℚ) / 60 := div_nonneg hq3 (by norm_num)
  have d2 : (0 : ℚ) ≤ (dt.second : ℚ) / 3600 := div_nonneg hq5 (by norm_num)
  refine ⟨by unfold get_time_of_day timeOfDay; rw [hassert, ok_bind], ?_, ?_, rfl, rfl,
    rfl, rfl, rfl, rfl, ?_⟩
  · unfold timeOfDay
    linarith
  · unfold timeOfDay
    linarith
  · have hassert2 : assert_china_time { dt with microsecond := u } = Except.ok () := hassert
    unfold hours_since_epoch
    rw [hassert2, ok_bind]
    congr 1
    simp only [hoursSinceEpochVal, absSeconds, absCivilSecs, civilSecs]
    ring

/-- C10 witness: at the leap-day instant 2024-02-29T23:59:59+08:00 and a
123456-microsecond variant of it. -/
theorem get_time_of_day_props_witness :
    get_time_of_day dtLeap
      = Except.ok ((dtLeap.hour : ℚ) + (dtLeap.minute : ℚ) / 60 + (dtLeap.second : ℚ) / 3600) ∧
    0 ≤ timeOfDay dtLeap ∧ timeOfDay dtLeap < 24 ∧
    get_time_of_day { dtLeap with microsecond := 123456 } = get_time_of_day dtLeap ∧
    temperature_model { dtLeap with microsecond := 123456 } 0 = temperature_model dtLeap 0 ∧
    humidity_model { dtLeap with microsecond := 123456 } 0 = humidity_model dtLeap 0 ∧
    light_model { dtLeap with microsecond := 123456 } 0 = light_model dtLeap 0 ∧
    soil_temperature_model { dtLeap with microsecond := 123456 } 0
      = soil_temperature_model dtLeap 0 ∧
    wind_speed_model { dtLeap with microsecond := 123456 } 0 = wind_speed_model dtLeap 0 ∧
    hours_since_epoch { dtLeap with microsecond := 123456 }
      = Except.ok (hoursSinceEpochVal dtLeap
          + (((123456 : ℤ) : ℚ) - (dtLeap.microsecond : ℚ)) / 3600000000) :=
  get_time_of_day_props dtLeap (by decide) rfl 123456 (by norm_num) (by norm_num) 0

/-- C4: for every start ≤ end, the batch loop at a 60-minute step over
the 6 registered sensors emits exactly `(⌊(end − start)/step⌋ + 1) × 6`
lines, one per (sensor, timestep) pair, each of the form
`env_data,sensor_id=<id> <field>=<value> <unix_nanoseconds>\n` with the
value carrying exactly 6 digits after the decimal point. -/
theorem batch_line_count_and_format (val : ℚ → SensorSpec → ℚ) (tStart tEnd : ℚ)
    (h : tStart ≤ tEnd) :
    (generate_line_protocol_lines val tEnd 3600 hstep3600 tStart).length
      = Int.toNat (Int.floor ((tEnd - tStart) / 3600) + 1) * 6 ∧
    ∀ l ∈ generate_line_protocol_lines val tEnd 3600 hstep3600 tStart,
      ∃ (sid fld v : String) (ts : ℤ), l = "env_data,sensor_id=" ++ sid ++ " " ++ fld ++ "=" ++ v
          ++ " " ++ toString ts ++ "\n"
        ∧ ∃ a b : String, v = a ++ "." ++ b ∧ b.length = 6 := by
  constructor
  · rw [genLines_eq_bind]
    have hlen := stepsList_length tEnd 3600 hstep3600 tStart
    rw [if_pos h] at hlen
    rw [List.length_flatMap]
    simp only [Function.comp_def]
    have hmap : ((stepsList tEnd 3600 hstep3600 tStart).map
          fun u => (sensors.map fun s => mkLine s (val u s) (timestampNs u)).length)
        = (stepsList tEnd 3600 hstep3600 tStart).map fun _ => 6 := by
      apply List.map_congr_left
      intro u hu
      rfl
    rw [hmap, sum_map_const_nat, hlen]
  · intro l hl
    rw [genLines_eq_bind] at hl
    simp only [List.mem_flatMap, List.mem_map] at hl
    obtain ⟨u, hu, s, hs, rfl⟩ := hl
    exact ⟨s.id, s.field, formatFixed6 (val u s), timestampNs u, rfl,
      formatFixed6_shape (val u s)⟩

/-- C4 witness: from Unix time 1704038400 (2024-01-01T00:00:00+08:00) to
1704045600 (2024-01-01T02:00:00+08:00) at a 60-minute step, the batch
produces 3 timesteps × 6 sensors = 18 lines. -/
theorem batch_line_count_and_format_witness :
    (generate_line_protocol_lines (fun _ _ => 0) 1704045600 3600 hstep3600 1704038400).length
      = 18 := by
  have h := (batch_line_count_and_format (fun _ _ => 0) 1704038400 1704045600
    (by norm_num)).1
  rw [h]
  have h2 : ((1704045600 : ℚ) - 1704038400) / 3600 = 2 := by norm_num
  rw [h2]
  decide

/-- C5: within one timestep the 6 lines follow the fixed registration
order (temperature, humidity, light_intensity, soil_temperature,
wind_speed, soil_moisture), and across successive timesteps the emitted
nanosecond timestamps are strictly increasing. -/
theorem batch_order_and_timestamps (val : ℚ → SensorSpec → ℚ) (tStart tEnd : ℚ)
    (h : tStart ≤ tEnd) :
    sensors.map SensorSpec.field
        = ["temperature", "humidity", "light_intensity", "soil_temperature",
           "wind_speed", "soil_moisture"] ∧
    sensors.map SensorSpec.id
        = ["v_temp_1", "v_humidity_1", "v_light_1", "v_soil_temp_1", "v_wind_1",
           "v_soil_moisture_1"] ∧
    generate_line_protocol_lines val tEnd 3600 hstep3600 tStart
      = (stepsList tEnd 3600 hstep3600 tStart).flatMap
          (fun u => sensors.map fun s => mkLine s (val u s) (timestampNs u)) ∧
    List.Chain' (fun a b => timestampNs a < timestampNs b)
      (stepsList tEnd 3600 hstep3600 tStart) := by
  refine ⟨rfl, rfl, genLines_eq_bind val tEnd 3600 hstep3600 tStart, ?_⟩
  refine (stepsList_chain tEnd 3600 hstep3600 tStart).imp ?_
  intro a b hab
  subst hab
  unfold timestampNs
  have harg : (a + 3600) * 1000000000
      = a * 1000000000 + ((3600000000000 : ℤ) : ℚ) := by
    push_cast
    ring
  rw [harg]
  exact pyInt_lt_add (a * 1000000000) 3600000000000 (by norm_num)

/-- C5 witness: the order and strict-timestamp properties at the concrete
2-hour range of the end-to-end scenario. -/
theorem batch_order_and_timestamps_witness :
    sensors.map SensorSpec.field
        = ["temperature", "humidity", "light_intensity", "soil_temperature",
           "wind_speed", "soil_moisture"] ∧
    sensors.map SensorSpec.id
        = ["v_temp_1", "v_humidity_1", "v_light_1", "v_soil_temp_1", "v_wind_1",
           "v_soil_moisture_1"] ∧
    generate_line_protocol_lines (fun _ _ => 0) 1704045600 3600 hstep3600 1704038400
      = (stepsList 1704045600 3600 hstep3600 1704038400).flatMap
          (fun u => sensors.map fun s => mkLine s 0 (timestampNs u)) ∧
    List.Chain' (fun a b => timestampNs a < timestampNs b)
      (stepsList 1704045600 3600 hstep3600 1704038400) :=
  batch_order_and_timestamps (fun _ _ => 0) 1704038400 1704045600 (by norm_num)

end Grape
